import Mathlib

/-!
Shallow embedding of the payout lifecycle engine of the vendor_service
repository (Django/Python), covering `apps/payouts/models.py`,
`apps/payouts/serializers.py`, `apps/payouts/views.py`,
`apps/payouts/processors/paypal_processor.py` and
`apps/vendors/tasks.py` (the payout tasks).

Conventions of the embedding:
* `Decimal` money amounts (two decimal places) are modelled exactly as
  integer cents (`Int`), so `$100.00` is `10000`.  All comparisons and
  arithmetic in the source are exact decimal operations, so this is a
  faithful exact model.
* Dates are modelled as integer day numbers, datetimes as integer `Int`
  timestamps supplied by the caller (the source reads `timezone.now()`).
* Randomness (`uuid.uuid4().hex`) is modelled as an oracle input: the
  fresh 32-character lowercase hex digest is a `String` argument.
* Each Django `Model.save()` call is a pure state transformation; the
  database is threaded explicitly.
* `settings.MIN_PAYOUT_AMOUNT` lives in the (excluded) settings module;
  it is threaded as the parameter `minPayout`.
-/

namespace VendorService

/-- Decidable equality for `Except`, so that concrete runs of the
fallible operations can be checked by evaluation. -/
instance exceptDecidableEq {ε α : Type} [DecidableEq ε] [DecidableEq α] :
    DecidableEq (Except ε α) := fun a b =>
  match a, b with
  | Except.error e1, Except.error e2 =>
    if h : e1 = e2 then isTrue (by rw [h])
    else isFalse (by intro hh; cases hh; exact h rfl)
  | Except.error _, Except.ok _ => isFalse (by intro hh; cases hh)
  | Except.ok _, Except.error _ => isFalse (by intro hh; cases hh)
  | Except.ok a1, Except.ok a2 =>
    if h : a1 = a2 then isTrue (by rw [h])
    else isFalse (by intro hh; cases hh; exact h rfl)

/-- `Payout.PayoutStatus` text choices of `apps/payouts/models.py`. -/
inductive PayoutStatus
  | pending
  | processing
  | completed
  | failed
  | cancelled
deriving Repr, DecidableEq

/-- `Payout.PayoutMethod` text choices of `apps/payouts/models.py`. -/
inductive PayoutMethod
  | bank_transfer
  | paypal
  | stripe
  | manual
deriving Repr, DecidableEq

/-- `PayoutAccount.AccountType` text choices of `apps/payouts/models.py`. -/
inductive AccountType
  | bank_account
  | paypal
  | stripe
  | cash
deriving Repr, DecidableEq

/-- `PayoutAccount.VerificationStatus` text choices of `apps/payouts/models.py`. -/
inductive VerificationStatus
  | pending
  | verified
  | failed
deriving Repr, DecidableEq

/-- `PayoutSchedule.ScheduleType` text choices of `apps/payouts/models.py`. -/
inductive ScheduleType
  | manual
  | weekly
  | bi_weekly
  | monthly
deriving Repr, DecidableEq

/-- The `VendorBalance` model of `apps/payouts/models.py` (its Decimal
fields, in cents).  The model has exactly these amount fields:
`available_balance`, `pending_balance`, `total_earnings`,
`total_payouts`, `on_hold_balance`; it has NO `minimum_payout_amount`
field (that field lives on `PayoutSchedule`). -/
structure VendorBalance where
  available_balance : Int
  pending_balance : Int
  total_earnings : Int
  total_payouts : Int
  on_hold_balance : Int
deriving Repr, DecidableEq

/-- Python attribute lookup for the Decimal-valued attributes of a
`VendorBalance` instance.  Looking up a name that is not a field of the
model returns `none`, which in Python raises `AttributeError`. -/
def VendorBalance.getattr (b : VendorBalance) (name : String) : Option Int :=
  if name = "available_balance" then some b.available_balance
  else if name = "pending_balance" then some b.pending_balance
  else if name = "total_earnings" then some b.total_earnings
  else if name = "total_payouts" then some b.total_payouts
  else if name = "on_hold_balance" then some b.on_hold_balance
  else none

/-- `VendorBalance.can_request_payout` (`apps/payouts/models.py`, lines
235-240): `available_balance >= amount and amount >= settings.MIN_PAYOUT_AMOUNT`. -/
def VendorBalance.can_request_payout (b : VendorBalance) (minPayout amount : Int) : Bool :=
  decide (amount ≤ b.available_balance) && decide (minPayout ≤ amount)

/-- The `Payout` model of `apps/payouts/models.py` (the fields the
engine reads or writes; `requested_at`/`created_at`/`updated_at`
auto-timestamps are omitted as no claim reads them). -/
structure Payout where
  vendorId : Nat
  accountId : Nat
  amount : Int
  currency : String
  payout_method : PayoutMethod
  status : PayoutStatus
  commission_fee : Int
  processing_fee : Int
  net_amount : Int
  processed_at : Option Int
  completed_at : Option Int
  reference_number : String
  processor_reference : Option String
  failure_reason : Option String
  retry_count : Nat
deriving Repr, DecidableEq

/-- The ten decimal digit characters (codepoints 48-57). -/
def digitChars : List Char := (List.range 10).map (fun n => Char.ofNat (48 + n))

/-- The sixteen lowercase hexadecimal digits, the alphabet of
`uuid.uuid4().hex`: the decimal digits followed by the letters at
codepoints 97-102. -/
def hexLowerChars : List Char :=
  digitChars ++ (List.range 6).map (fun n => Char.ofNat (97 + n))

/-- The sixteen uppercase hexadecimal digits: the decimal digits
followed by the letters at codepoints 65-70. -/
def hexUpperChars : List Char :=
  digitChars ++ (List.range 6).map (fun n => Char.ofNat (65 + n))

/-- A character is a lowercase hex digit. -/
def isHexLower (c : Char) : Bool := decide (c ∈ hexLowerChars)

/-- A character is an uppercase hex digit. -/
def isHexUpper (c : Char) : Bool := decide (c ∈ hexUpperChars)

/-- The reference-number generator of `Payout.save`
(`apps/payouts/models.py`, line 150):
`f"PO-{uuid.uuid4().hex[:8].upper()}"`.
The argument is the 32-character lowercase hex digest `uuid4().hex`;
`[:8]` takes the first 8 characters and `.upper()` uppercases each
(ASCII) character.  The string is built directly from its character
list: the literal prefix `PO-` followed by the uppercased prefix. -/
def genReference (uuidHex : String) : String :=
  String.mk ('P' :: 'O' :: '-' :: (uuidHex.data.take 8).map Char.toUpper)

/-- `Payout.save` (`apps/payouts/models.py`, lines 147-155): generate a
reference number when the stored one is falsy (empty), then always
recompute `net_amount = amount - commission_fee - processing_fee`
before persisting. -/
def Payout.save (uuidHex : String) (p : Payout) : Payout :=
  let p1 := if p.reference_number = "" then
    { p with reference_number := genReference uuidHex }
  else p
  { p1 with net_amount := p1.amount - p1.commission_fee - p1.processing_fee }

/-- `PayoutViewSet.update_vendor_balance` (`apps/payouts/views.py`,
lines 149-153): decrement `available_balance` and increment
`total_payouts` by `amount`, in one save. -/
def update_vendor_balance (b : VendorBalance) (amount : Int) : VendorBalance :=
  { b with available_balance := b.available_balance - amount,
           total_payouts := b.total_payouts + amount }

/-- The `process_payout` task (`apps/vendors/tasks.py`, lines 601-653),
mock success path: unconditionally mark the payout `COMPLETED`, stamp
`processed_at`/`completed_at`, set `processor_reference` to
`PROC-{reference_number}`, save it, then decrement the vendor balance
by `amount` and increment `total_payouts` by `amount`.  No check of the
payout's prior status and no check against `available_balance` is
performed. -/
def process_payout (now : Int) (uuidHex : String) (p : Payout) (b : VendorBalance) :
    Payout × VendorBalance :=
  let p1 := Payout.save uuidHex
    { p with status := PayoutStatus.completed,
             processed_at := some now,
             completed_at := some now,
             processor_reference := some ("PROC-" ++ p.reference_number) }
  let b1 := { b with available_balance := b.available_balance - p1.amount,
                     total_payouts := b.total_payouts + p1.amount }
  (p1, b1)

/-- The `PayoutAccount` model of `apps/payouts/models.py` (the fields
the payout engine reads). -/
structure PayoutAccount where
  accountId : Nat
  account_type : AccountType
  verification_status : VerificationStatus
  is_primary : Bool
deriving Repr, DecidableEq

/-- Python-level failure outcomes surfaced by the payout API code
paths: a DRF `ValidationError` keyed by field, a Python
`AttributeError` (attribute lookup on an object lacking the field), and
the repository's `CustomException` carrying an HTTP status code. -/
inductive PyError
  | validationError (field msg : String)
  | attributeError (attr : String)
  | customException (msg : String) (statusCode : Nat)
deriving Repr, DecidableEq

/-- `PayoutCreateSerializer.validate` (`apps/payouts/serializers.py`,
lines 60-87): find the account among the vendor's accounts, require it
verified, then check `balance.can_request_payout(amount)`.  On balance
failure the source raises `ValidationError` whose message is the
f-string
`f"Insufficient balance or amount below minimum payout of ${balance.minimum_payout_amount}."`;
evaluating that f-string looks up `minimum_payout_amount` on the
`VendorBalance` instance, so the attribute lookup happens before the
`ValidationError` can be raised.  The `DecimalField` bound
`MinValueValidator(0.01)` is checked by the field itself before
`validate` runs and is a precondition threaded by the caller. -/
def payoutCreateValidate (minPayout : Int) (accounts : List PayoutAccount)
    (balance : VendorBalance) (amount : Int) (payout_account_id : Nat) :
    Except PyError PayoutAccount :=
  match accounts.find? (fun a => a.accountId == payout_account_id) with
  | none => Except.error (PyError.validationError "payout_account_id" "Payout account not found.")
  | some payout_account =>
    if payout_account.verification_status ≠ VerificationStatus.verified then
      Except.error (PyError.validationError "payout_account_id" "Payout account must be verified.")
    else if ¬ balance.can_request_payout minPayout amount then
      match balance.getattr "minimum_payout_amount" with
      | none => Except.error (PyError.attributeError "minimum_payout_amount")
      | some v =>
        Except.error (PyError.validationError "amount"
          ("Insufficient balance or amount below minimum payout of $" ++ toString v ++ "."))
    else
      Except.ok payout_account

/-- `PayoutViewSet.get_payout_method` (`apps/payouts/views.py`, lines
133-139): `method_map.get(account_type, Payout.PayoutMethod.MANUAL)`. -/
def get_payout_method : AccountType → PayoutMethod
  | AccountType.bank_account => PayoutMethod.bank_transfer
  | AccountType.paypal => PayoutMethod.paypal
  | AccountType.stripe => PayoutMethod.stripe
  | AccountType.cash => PayoutMethod.manual

/-- The processor classes selected by `PayoutViewSet.get_processor`. -/
inductive ProcessorKind
  | stripeProcessor
  | paypalProcessor
deriving Repr, DecidableEq

/-- `PayoutViewSet.get_processor` (`apps/payouts/views.py`, lines
141-147): bank accounts and Stripe accounts get the Stripe processor,
PayPal accounts the PayPal processor, anything else (the `cash` account
type) raises `CustomException("Unsupported payout method.", 400)`. -/
def get_processor : AccountType → Except PyError ProcessorKind
  | AccountType.bank_account => Except.ok ProcessorKind.stripeProcessor
  | AccountType.stripe => Except.ok ProcessorKind.stripeProcessor
  | AccountType.paypal => Except.ok ProcessorKind.paypalProcessor
  | AccountType.cash => Except.error (PyError.customException "Unsupported payout method." 400)

/-- Outcome of the external `processor.process_payout(payout)` call as
seen by `PayoutViewSet.create` (an I/O oracle input of the embedding):
`success reference` is a `{'success': True, 'reference': ...}` dict,
`failure error` is a `{'success': False, 'error': ...}` dict (the
Stripe processor's failure style), and `raised msg` is an exception
escaping the adapter (the PayPal processor raises `PayoutError` instead
of returning a failure dict). -/
inductive ProcOutcome
  | success (reference : String)
  | failure (error : String)
  | raised (msg : String)
deriving Repr, DecidableEq

/-- The per-vendor database slice touched by the payout views: the
persisted payout rows, the vendor's balance row and payout accounts. -/
structure Db where
  payouts : List Payout
  balance : VendorBalance
  accounts : List PayoutAccount
deriving Repr, DecidableEq

/-- The fresh `Payout` row built by `Payout.objects.create(...)` inside
`PayoutViewSet.create` (`apps/payouts/views.py`, lines 94-101): status
defaults to `PENDING`, fees default to `0`, `net_amount` is passed as
`amount` (and recomputed by `save`), `retry_count` defaults to `0`, and
`save` runs as part of `create`, generating the reference number. -/
def newPayout (uuidHex : String) (vendorId : Nat) (acct : PayoutAccount) (amount : Int) :
    Payout :=
  Payout.save uuidHex
    { vendorId := vendorId
      accountId := acct.accountId
      amount := amount
      currency := "USD"
      payout_method := get_payout_method acct.account_type
      status := PayoutStatus.pending
      commission_fee := 0
      processing_fee := 0
      net_amount := amount
      processed_at := none
      completed_at := none
      reference_number := ""
      processor_reference := none
      failure_reason := none
      retry_count := 0 }

/-- `PayoutViewSet.create` (`apps/payouts/views.py`, lines 82-127), as
a transformation of the vendor's database slice.  The steps, in source
order: run `PayoutCreateSerializer` validation (no side effect); create
and persist the `Payout` row; pick the processor (raises for `cash`
AFTER the row is persisted); call the processor; on a success dict set
`PROCESSING` + `processor_reference`, save, and apply
`update_vendor_balance`; on a failure dict set `FAILED` +
`failure_reason`, save, and raise `CustomException`; an adapter
exception propagates, leaving the row `PENDING`.  The updated row
replaces the created one (same primary key). -/
def payoutViewCreate (minPayout : Int) (uuidHex : String) (vendorId : Nat) (db : Db)
    (amount : Int) (payout_account_id : Nat) (procOutcome : ProcOutcome) :
    Db × Except PyError Payout :=
  match payoutCreateValidate minPayout db.accounts db.balance amount payout_account_id with
  | Except.error e => (db, Except.error e)
  | Except.ok acct =>
    let p0 := newPayout uuidHex vendorId acct amount
    let db1 : Db := { db with payouts := db.payouts ++ [p0] }
    match get_processor acct.account_type with
    | Except.error e => (db1, Except.error e)
    | Except.ok _ =>
      match procOutcome with
      | ProcOutcome.success ref =>
        let p1 := Payout.save uuidHex
          { p0 with status := PayoutStatus.processing, processor_reference := some ref }
        ({ db1 with payouts := db.payouts ++ [p1],
                    balance := update_vendor_balance db1.balance amount },
         Except.ok p1)
      | ProcOutcome.failure err =>
        let p1 := Payout.save uuidHex
          { p0 with status := PayoutStatus.failed, failure_reason := some err }
        ({ db1 with payouts := db.payouts ++ [p1] },
         Except.error (PyError.customException ("Payout processing failed: " ++ err) 400))
      | ProcOutcome.raised msg =>
        (db1, Except.error (PyError.customException msg 500))

/-- The `PayoutSchedule` model of `apps/payouts/models.py` (the fields
the schedule engine reads or writes). -/
structure Schedule where
  vendorId : Nat
  schedule_type : ScheduleType
  is_active : Bool
  next_payout_date : Option Int
  minimum_payout_amount : Int
  auto_process : Bool
  last_processed_at : Option Int
deriving Repr, DecidableEq

/-- The filter of `process_scheduled_payouts` (`apps/vendors/tasks.py`,
lines 557-561): `is_active=True, auto_process=True,
next_payout_date__lte=today` (a NULL `next_payout_date` never matches
`__lte`). -/
def dueForSweep (today : Int) (s : Schedule) : Bool :=
  s.is_active && s.auto_process &&
    (match s.next_payout_date with
     | some d => decide (d ≤ today)
     | none => false)

/-- `update_next_payout_date` (`apps/vendors/tasks.py`, lines 825-847):
set `next_payout_date` to `today + 7/14/30` days for
weekly/bi-weekly/monthly and to NULL for manual, and stamp
`last_processed_at = timezone.now()`. -/
def update_next_payout_date (today now : Int) (s : Schedule) : Schedule :=
  let next : Option Int :=
    match s.schedule_type with
    | ScheduleType.weekly => some (today + 7)
    | ScheduleType.bi_weekly => some (today + 14)
    | ScheduleType.monthly => some (today + 30)
    | ScheduleType.manual => none
  { s with next_payout_date := next, last_processed_at := some now }

/-- Outcome of the per-schedule loop body of
`process_scheduled_payouts` for one visited schedule:
`createdAndDispatched p s` — a payout `p` was created and
`process_payout.delay(p.id)` dispatched, schedule updated to `s`;
`skippedBelowMinimum s` — balance below the schedule minimum, no
payout, schedule still updated to `s`; `errored s` — an exception in
the body (e.g. `payout_account=None` because the vendor has no primary
account, violating the NOT NULL foreign key) was caught by the
per-schedule `except`, leaving the schedule untouched. -/
inductive SweepOutcome
  | createdAndDispatched (p : Payout) (s : Schedule)
  | skippedBelowMinimum (s : Schedule)
  | errored (s : Schedule)
deriving Repr, DecidableEq

/-- The `Payout.objects.create(...)` call of
`process_scheduled_payouts` (`apps/vendors/tasks.py`, lines 573-579):
amount is the vendor's full `available_balance`, the account is the
vendor's primary payout account, the method is hard-coded
`bank_transfer`; `net_amount` is not passed (computed by `save`),
status defaults to `PENDING`. -/
def sweepPayout (uuidHex : String) (vendorId : Nat) (primaryAccountId : Nat)
    (available : Int) : Payout :=
  Payout.save uuidHex
    { vendorId := vendorId
      accountId := primaryAccountId
      amount := available
      currency := "USD"
      payout_method := PayoutMethod.bank_transfer
      status := PayoutStatus.pending
      commission_fee := 0
      processing_fee := 0
      net_amount := 0
      processed_at := none
      completed_at := none
      reference_number := ""
      processor_reference := none
      failure_reason := none
      retry_count := 0 }

/-- The loop body of `process_scheduled_payouts`
(`apps/vendors/tasks.py`, lines 565-592) for one schedule: if
`available_balance >= minimum_payout_amount`, create the payout from
the primary account (`None` if the vendor has no primary account, which
makes the insert raise and the per-schedule `except` skip the rest of
the body) and dispatch `process_payout.delay`; then (in both the
created and the skipped case) call `update_next_payout_date`. -/
def sweepScheduleBody (today now : Int) (uuidHex : String) (balance : VendorBalance)
    (primaryAccountId : Option Nat) (s : Schedule) : SweepOutcome :=
  if s.minimum_payout_amount ≤ balance.available_balance then
    match primaryAccountId with
    | some a =>
      SweepOutcome.createdAndDispatched
        (sweepPayout uuidHex s.vendorId a balance.available_balance)
        (update_next_payout_date today now s)
    | none => SweepOutcome.errored s
  else
    SweepOutcome.skippedBelowMinimum (update_next_payout_date today now s)

/-- `process_scheduled_payouts` (`apps/vendors/tasks.py`, lines
549-598): apply the loop body to exactly the schedules passing the
due filter.  `env` supplies each vendor's balance row and primary
payout account id, `uuids` the fresh uuid digest drawn for a vendor's
iteration. -/
def process_scheduled_payouts (today now : Int) (uuids : Nat → String)
    (env : Nat → VendorBalance × Option Nat) (schedules : List Schedule) :
    List SweepOutcome :=
  (schedules.filter (dueForSweep today)).map
    (fun s => sweepScheduleBody today now (uuids s.vendorId) (env s.vendorId).1 (env s.vendorId).2 s)

/-- Response dict returned by the PayPal webhook handler. -/
structure WebhookResponse where
  success : Bool
  message : String
deriving Repr, DecidableEq

/-- A PayPal webhook payload as read by `webhook_handler`
(`apps/payouts/processors/paypal_processor.py`): `event_type` plus the
`resource` fields the item handlers read (`payout_item_id`,
`transaction_id`); the handlers only log these. -/
structure WebhookEvent where
  event_type : String
  payout_item_id : Option String
  transaction_id : Option String
deriving Repr, DecidableEq

/-- `PayPalProcessor.webhook_handler`
(`apps/payouts/processors/paypal_processor.py`, lines 687-720) together
with its event handlers (lines 722-798).  Every branch of the item and
batch handlers only logs: the database-update logic of
`_handle_payout_success`, `_handle_payout_failed` and
`_handle_payout_cancelled` is commented out (`pass`), so the database
slice is returned unchanged in every case; unrecognized event types are
acknowledged with `{'success': True, 'message': 'Webhook received but not processed'}`. -/
def webhook_handler (db : Db) (ev : WebhookEvent) : Db × WebhookResponse :=
  if ev.event_type = "PAYMENT.PAYOUTS-ITEM.SUCCEEDED" then
    (db, ⟨true, "Payout success processed"⟩)
  else if ev.event_type = "PAYMENT.PAYOUTS-ITEM.FAILED" then
    (db, ⟨true, "Payout failure processed"⟩)
  else if ev.event_type = "PAYMENT.PAYOUTS-ITEM.CANCELED" then
    (db, ⟨true, "Payout cancellation processed"⟩)
  else if ev.event_type = "PAYMENT.PAYOUTSBATCH.SUCCEEDED" then
    (db, ⟨true, "Batch success processed"⟩)
  else if ev.event_type = "PAYMENT.PAYOUTSBATCH.DENIED" then
    (db, ⟨true, "Batch denial processed"⟩)
  else
    (db, ⟨true, "Webhook received but not processed"⟩)

/-! ## Concrete fixtures used by the theorems -/

/-- A concrete 32-character lowercase uuid4 hex digest. -/
def uuidA : String := "0123456789abcdef0123456789abcdef"

/-- A second concrete uuid4 hex digest, differing from `uuidA` already
in its first 8 characters. -/
def uuidB : String := "fedcba9876543210fedcba9876543210"

/-- A third concrete uuid4 hex digest. -/
def uuidC : String := "00112233445566778899aabbccddeeff"

/-- A verified primary PayPal payout account (id 1). -/
def acctPaypal : PayoutAccount :=
  ⟨1, AccountType.paypal, VerificationStatus.verified, true⟩

/-- A verified cash payout account (id 2). -/
def acctCash : PayoutAccount :=
  ⟨2, AccountType.cash, VerificationStatus.verified, false⟩

/-- A vendor database slice with `$100.00` available balance and the
two verified accounts. -/
def dbRich : Db := ⟨[], ⟨10000, 0, 10000, 0, 0⟩, [acctPaypal, acctCash]⟩

/-- A vendor database slice with only `$10.00` available balance. -/
def dbPoor : Db := ⟨[], ⟨1000, 0, 1000, 0, 0⟩, [acctPaypal, acctCash]⟩

/-- An active weekly auto-process schedule for vendor 7, due on day 100,
with a `$50.00` minimum. -/
def schedWeekly : Schedule := ⟨7, ScheduleType.weekly, true, some 100, 5000, true, none⟩

/-- Sweep-created payout for vendor 7 over the full `$100.00` available
balance (the payout of the C1 trace). -/
def c1_payout1 : Payout := sweepPayout uuidA 7 1 10000

/-- C1 trace, step 2: after the sweep created `c1_payout1` (dispatching
`process_payout` asynchronously, balance untouched), the vendor's
synchronous `createPayout` of `$60.00` against account 1 succeeds,
leaving `$40.00` available. -/
def c1_db2 : Db := (payoutViewCreate 2500 uuidB 7 dbRich 6000 1 (ProcOutcome.success "REF-1")).1

/-- C1 trace, step 3: the dispatched `process_payout` task now runs on
the sweep payout against the already-reduced balance. -/
def c1_final : VendorBalance := (process_payout 1001 uuidC c1_payout1 c1_db2.balance).2

/-- Balance fixture for the C2 run: `$100.00` available. -/
def c2_bal : VendorBalance := ⟨10000, 0, 10000, 0, 0⟩

/-- A sweep-created payout of the full `$100.00` for the C2 run. -/
def c2_payout : Payout := sweepPayout uuidA 7 1 10000

/-- One run of `process_payout` on `c2_payout`. -/
def c2_once : Payout × VendorBalance := process_payout 1000 uuidB c2_payout c2_bal

/-- A second run of `process_payout` on the (now COMPLETED) payout. -/
def c2_twice : Payout × VendorBalance := process_payout 1000 uuidB c2_once.1 c2_once.2

/-- View-create against the rich vendor with a transient adapter error
surfaced as a failure dict (the Stripe processor turns connection
errors into `{'success': False, 'error': ...}`). -/
def c4_res : Db × Except PyError Payout :=
  payoutViewCreate 2500 uuidA 7 dbRich 6000 1 (ProcOutcome.failure "Connection error")

/-- A payout sitting in `PROCESSING`, awaiting webhook confirmation. -/
def c5_payout : Payout :=
  ⟨7, 1, 6000, "USD", PayoutMethod.paypal, PayoutStatus.processing, 0, 0, 6000,
   some 900, none, "PO-ABCDEF01", some "ITEM-1", none, 0⟩

/-- Database slice holding the in-flight `c5_payout`. -/
def c5_db : Db := ⟨[c5_payout], ⟨4000, 0, 10000, 0, 0⟩, [acctPaypal]⟩

/-- A PayPal payout-item success webhook for the in-flight payout. -/
def c5_evSuccess : WebhookEvent :=
  ⟨"PAYMENT.PAYOUTS-ITEM.SUCCEEDED", some "ITEM-1", some "TX-99"⟩

/-- A webhook with an event type the handler does not recognize. -/
def c5_evUnknown : WebhookEvent := ⟨"CUSTOMER.DISPUTE.CREATED", none, none⟩

/-- A valid uuid4 hex digest (32 lowercase hex characters). -/
def c7_u1 : String := "aaaaaaaa000000000000000000000000"

/-- A different valid uuid4 hex digest sharing the first 8 characters
with `c7_u1`. -/
def c7_u2 : String := "aaaaaaaa111111111111111111111111"

/-- A persisted payout with a nonempty reference number. -/
def c7_payout : Payout :=
  ⟨7, 1, 6000, "USD", PayoutMethod.paypal, PayoutStatus.pending, 0, 0, 6000,
   none, none, "PO-ABCDEF01", none, none, 0⟩

/-- View-create against the rich vendor aimed at the verified cash
account: the serializer passes, so the row is persisted before
`get_processor` rejects the account type. -/
def c9_res : Db × Except PyError Payout :=
  payoutViewCreate 2500 uuidA 7 dbRich 6000 2 (ProcOutcome.raised "never reached")

/-- The row persisted by the failure branch of `PayoutViewSet.create`:
the created payout re-saved with status `FAILED` and the adapter error
as `failure_reason`. -/
def failedViewPayout (u : String) (vid : Nat) (acct : PayoutAccount) (amount : Int)
    (e : String) : Payout :=
  Payout.save u { newPayout u vid acct amount with
    status := PayoutStatus.failed, failure_reason := some e }

/-! ## Helper lemmas -/

/-- `Payout.save` does not change the status field. -/
theorem Payout.save_status (u : String) (p : Payout) :
    (Payout.save u p).status = p.status := by
  by_cases h : p.reference_number = "" <;> simp [Payout.save, h]

/-- `Payout.save` does not change the amount field. -/
theorem Payout.save_amount (u : String) (p : Payout) :
    (Payout.save u p).amount = p.amount := by
  by_cases h : p.reference_number = "" <;> simp [Payout.save, h]

/-- `Payout.save` does not change the payout account. -/
theorem Payout.save_accountId (u : String) (p : Payout) :
    (Payout.save u p).accountId = p.accountId := by
  by_cases h : p.reference_number = "" <;> simp [Payout.save, h]

/-- `Payout.save` does not change the retry counter. -/
theorem Payout.save_retry_count (u : String) (p : Payout) :
    (Payout.save u p).retry_count = p.retry_count := by
  by_cases h : p.reference_number = "" <;> simp [Payout.save, h]

/-- `Payout.save` does not change the failure reason. -/
theorem Payout.save_failure_reason (u : String) (p : Payout) :
    (Payout.save u p).failure_reason = p.failure_reason := by
  by_cases h : p.reference_number = "" <;> simp [Payout.save, h]

/-- `Payout.save` always recomputes the net amount from the amount and
fee fields. -/
theorem Payout.save_net (u : String) (p : Payout) :
    (Payout.save u p).net_amount = p.amount - p.commission_fee - p.processing_fee := by
  by_cases h : p.reference_number = "" <;> simp [Payout.save, h]

/-- `Payout.save` never changes a nonempty reference number. -/
theorem Payout.save_reference_of_nonempty (u : String) (p : Payout)
    (h : p.reference_number ≠ "") :
    (Payout.save u p).reference_number = p.reference_number := by
  simp [Payout.save, h]

/-- The net amount supplied to `Payout.save` is irrelevant. -/
theorem Payout.save_ignores_supplied_net (u : String) (p : Payout) (n : Int) :
    Payout.save u { p with net_amount := n } = Payout.save u p := by
  by_cases h : p.reference_number = "" <;> simp [Payout.save, h]

/-- A lowercase hex digit uppercases to an uppercase hex digit. -/
theorem isHexUpper_toUpper {c : Char} (h : isHexLower c = true) :
    isHexUpper c.toUpper = true := by
  have hc : c ∈ hexLowerChars := of_decide_eq_true h
  have hall : hexLowerChars.all (fun d => isHexUpper d.toUpper) = true := by decide
  exact List.all_eq_true.mp hall c hc

/-- `Char.toUpper` is injective on the lowercase hex digits. -/
theorem hexLower_toUpper_injective {c d : Char} (hc : isHexLower c = true)
    (hd : isHexLower d = true) (h : c.toUpper = d.toUpper) : c = d := by
  have hc' : c ∈ hexLowerChars := of_decide_eq_true hc
  have hd' : d ∈ hexLowerChars := of_decide_eq_true hd
  have hall : hexLowerChars.all
      (fun a => hexLowerChars.all (fun b => !(a.toUpper == b.toUpper) || (a == b))) = true := by
    decide
  have h1 := List.all_eq_true.mp (List.all_eq_true.mp hall c hc') d hd'
  simp only [h, beq_self_eq_true, Bool.not_true, Bool.false_or, beq_iff_eq] at h1
  exact h1

/-- Character-wise uppercasing is injective on lists of lowercase hex
digits. -/
theorem map_toUpper_injective : ∀ (l1 l2 : List Char),
    l1.all isHexLower = true → l2.all isHexLower = true →
    l1.map Char.toUpper = l2.map Char.toUpper → l1 = l2 := by
  intro l1
  induction l1 with
  | nil =>
    intro l2 _ _ h
    cases l2 with
    | nil => rfl
    | cons b t2 => simp at h
  | cons a t ih =>
    intro l2 h1 h2 h
    cases l2 with
    | nil => simp at h
    | cons b t2 =>
      simp only [List.map_cons, List.cons.injEq] at h
      simp only [List.all_cons, Bool.and_eq_true] at h1 h2
      rw [hexLower_toUpper_injective h1.1 h2.1 h.1, ih t2 h1.2 h2.2 h.2]

/-- The character list of a generated reference. -/
theorem genReference_data (u : String) :
    (genReference u).data = 'P' :: 'O' :: '-' :: (u.data.take 8).map Char.toUpper := rfl

/-! ## Claim theorems -/

/-- C1: the claimed invariant `available_balance >= 0` fails on the
code.  Concrete reachable trace: the scheduled sweep creates a payout
over the vendor's full `$100.00` available balance (reserving nothing)
and dispatches `process_payout` asynchronously; before the task runs,
the vendor's own `createPayout` of `$60.00` validates against the still
untouched `$100.00`, succeeds, and `update_vendor_balance` lowers the
balance to `$40.00`; the dispatched `process_payout` then decrements
the full `$100.00` without any check, driving `available_balance` to
`-$60.00`. -/
theorem C1_available_balance_goes_negative :
    sweepScheduleBody 100 1000 uuidA dbRich.balance (some 1) schedWeekly =
      SweepOutcome.createdAndDispatched c1_payout1 (update_next_payout_date 100 1000 schedWeekly)
    ∧ c1_db2.balance.available_balance = 4000
    ∧ c1_final.available_balance = -6000
    ∧ c1_final.available_balance < 0 := by
  refine ⟨by decide, by decide, by decide, by decide⟩

/-- C2: confirming a payout's success outcome via `process_payout` is
NOT idempotent.  Running the task once on a `$100.00` sweep payout
leaves `available_balance = 0` and `total_payouts = $100.00`; running
it a second time on the now COMPLETED payout reports the same terminal
status but decrements `available_balance` again (to `-$100.00`) and
double-increments `total_payouts` (to `$200.00`): confirming an
already-terminal payout is not a no-op on the balance. -/
theorem C2_process_payout_not_idempotent :
    c2_once.1.status = PayoutStatus.completed
    ∧ c2_once.2.available_balance = 0
    ∧ c2_once.2.total_payouts = 10000
    ∧ c2_twice.1.status = c2_once.1.status
    ∧ c2_twice.2.available_balance = -10000
    ∧ c2_twice.2.total_payouts = 20000
    ∧ c2_twice.2 ≠ c2_once.2 := by
  refine ⟨by decide, by decide, by decide, by decide, by decide, by decide, by decide⟩

/-- C3: a createPayout whose amount fails the balance check does NOT
fail with an InsufficientBalance validation error: evaluating the
error-message f-string looks up `minimum_payout_amount` on the
`VendorBalance` instance, which has no such field, so the call dies
with `AttributeError` (a server error) before the `ValidationError`
can be raised.  No payout row is created and the balance is unchanged
(the exception precedes any side effect).  Both triggering conditions
are shown: amount above the available balance (`$50.00` against
`$10.00`) and amount below the platform minimum (`$20.00` against a
`$25.00` minimum with ample balance). -/
theorem C3_insufficient_balance_raises_attribute_error :
    payoutCreateValidate 2500 dbPoor.accounts dbPoor.balance 5000 1 =
      Except.error (PyError.attributeError "minimum_payout_amount")
    ∧ payoutViewCreate 2500 uuidA 7 dbPoor 5000 1 (ProcOutcome.raised "never reached") =
      (dbPoor, Except.error (PyError.attributeError "minimum_payout_amount"))
    ∧ payoutCreateValidate 2500 dbRich.accounts dbRich.balance 2000 1 =
      Except.error (PyError.attributeError "minimum_payout_amount")
    ∧ VendorBalance.getattr dbPoor.balance "minimum_payout_amount" = none := by
  refine ⟨by decide, by decide, by decide, by decide⟩

/-- C5: the webhook handler acknowledges a payout-item success event
but performs NO state change: the database-update logic of
`_handle_payout_success` is commented out, so the in-flight payout
stays `PROCESSING`, `completed_at` stays unset and the balance is
untouched, contradicting the claimed transition to `COMPLETED`.  The
second half of the claim does hold: an unrecognized event type is
acknowledged with success rather than failing the delivery. -/
theorem C5_webhook_success_is_a_no_op :
    webhook_handler c5_db c5_evSuccess = (c5_db, ⟨true, "Payout success processed"⟩)
    ∧ (webhook_handler c5_db c5_evSuccess).1.payouts = [c5_payout]
    ∧ c5_payout.status = PayoutStatus.processing
    ∧ c5_payout.completed_at = none
    ∧ (webhook_handler c5_db c5_evSuccess).1.balance = c5_db.balance
    ∧ webhook_handler c5_db c5_evUnknown = (c5_db, ⟨true, "Webhook received but not processed"⟩) := by
  refine ⟨by decide, by decide, by decide, by decide, by decide, by decide⟩

/-- C6: on every persist, `Payout.save` recomputes
`net_amount = amount - commission_fee - processing_fee`, and the
`net_amount` value supplied by the caller is irrelevant to the saved
row. -/
theorem C6_net_amount_recomputed_on_save (u : String) (p : Payout) (n : Int) :
    (Payout.save u p).net_amount = p.amount - p.commission_fee - p.processing_fee
    ∧ Payout.save u { p with net_amount := n } = Payout.save u p :=
  ⟨Payout.save_net u p, Payout.save_ignores_supplied_net u p n⟩

/-- C4 counterexample: a transient adapter failure ("Connection error",
surfaced by the Stripe processor as a failure dict) does NOT leave the
payout `PENDING` with `retry_count` incremented: `PayoutViewSet.create`
marks the payout `FAILED` with `retry_count` still `0` and raises a
`CustomException`. -/
theorem C4_counterexample_transient_marks_failed :
    c4_res.1.payouts.map Payout.status = [PayoutStatus.failed]
    ∧ c4_res.1.payouts.map Payout.status ≠ [PayoutStatus.pending]
    ∧ c4_res.1.payouts.map Payout.retry_count = [0]
    ∧ c4_res.2 =
      Except.error (PyError.customException "Payout processing failed: Connection error" 400) := by
  refine ⟨by decide, by decide, by decide, by decide⟩

/-- C7 counterexample: the generator truncates the uuid digest to 8 hex
characters, so two distinct valid uuid4 digests can produce the same
reference number — a collection of generated reference numbers can
contain duplicates. -/
theorem C7_counterexample_duplicate_references :
    c7_u1 ≠ c7_u2
    ∧ c7_u1.data.length = 32
    ∧ c7_u2.data.length = 32
    ∧ c7_u1.data.all isHexLower = true
    ∧ c7_u2.data.all isHexLower = true
    ∧ genReference c7_u1 = genReference c7_u2 := by
  refine ⟨by decide, by decide, by decide, by decide, by decide, by decide⟩

/-- C9 counterexample: a createPayout against a verified cash account
with sufficient balance is rejected ("Unsupported payout method."), yet
the rejection is NOT free of side effects: the `Payout` row was
persisted (status `PENDING`) before `get_processor` raised, and remains
in the database. -/
theorem C9_counterexample_cash_rejection_persists_row :
    c9_res.2 = Except.error (PyError.customException "Unsupported payout method." 400)
    ∧ c9_res.1.payouts ≠ dbRich.payouts
    ∧ c9_res.1.payouts = [newPayout uuidA 7 acctCash 6000]
    ∧ (newPayout uuidA 7 acctCash 6000).status = PayoutStatus.pending := by
  refine ⟨by decide, by decide, by decide, by decide⟩

/-- C4 (amended): `PayoutViewSet.create` makes no transient/permanent
distinction: ANY adapter failure surfaced as a failure dict marks the
payout `FAILED` with `failure_reason` recorded and the retry counter
untouched at `0`, raises a `CustomException`, and leaves the vendor
balance unchanged (no funds were reserved at creation, so there is
nothing to release). -/
theorem C4_amended_any_failure_marks_failed
    (minPayout : Int) (u : String) (vid : Nat) (db : Db) (amount : Int) (aid : Nat)
    (acct : PayoutAccount) (k : ProcessorKind) (e : String)
    (hv : payoutCreateValidate minPayout db.accounts db.balance amount aid = Except.ok acct)
    (hk : get_processor acct.account_type = Except.ok k) :
    payoutViewCreate minPayout u vid db amount aid (ProcOutcome.failure e) =
      ({ db with payouts := db.payouts ++ [failedViewPayout u vid acct amount e] },
       Except.error (PyError.customException ("Payout processing failed: " ++ e) 400))
    ∧ (failedViewPayout u vid acct amount e).status = PayoutStatus.failed
    ∧ (failedViewPayout u vid acct amount e).failure_reason = some e
    ∧ (failedViewPayout u vid acct amount e).retry_count = 0
    ∧ (payoutViewCreate minPayout u vid db amount aid (ProcOutcome.failure e)).1.balance
        = db.balance := by
  have hview : payoutViewCreate minPayout u vid db amount aid (ProcOutcome.failure e) =
      ({ db with payouts := db.payouts ++ [failedViewPayout u vid acct amount e] },
       Except.error (PyError.customException ("Payout processing failed: " ++ e) 400)) := by
    simp only [payoutViewCreate, hv, hk, failedViewPayout]
  have hretry : (newPayout u vid acct amount).retry_count = 0 := by
    unfold newPayout
    rw [Payout.save_retry_count]
  refine ⟨hview, ?_, ?_, ?_, ?_⟩
  · unfold failedViewPayout
    rw [Payout.save_status]
  · unfold failedViewPayout
    rw [Payout.save_failure_reason]
  · unfold failedViewPayout
    rw [Payout.save_retry_count]
    exact hretry
  · rw [hview]

/-- C4 witness: the amended behavior at a concrete input (the transient
"Connection error" against the rich vendor's PayPal account). -/
theorem C4_amended_witness :
    payoutViewCreate 2500 uuidA 7 dbRich 6000 1 (ProcOutcome.failure "Connection error") =
      ({ dbRich with payouts :=
          dbRich.payouts ++ [failedViewPayout uuidA 7 acctPaypal 6000 "Connection error"] },
       Except.error (PyError.customException
         ("Payout processing failed: " ++ "Connection error") 400))
    ∧ (failedViewPayout uuidA 7 acctPaypal 6000 "Connection error").status = PayoutStatus.failed
    ∧ (failedViewPayout uuidA 7 acctPaypal 6000 "Connection error").failure_reason =
        some "Connection error"
    ∧ (failedViewPayout uuidA 7 acctPaypal 6000 "Connection error").retry_count = 0
    ∧ (payoutViewCreate 2500 uuidA 7 dbRich 6000 1
        (ProcOutcome.failure "Connection error")).1.balance = dbRich.balance :=
  C4_amended_any_failure_marks_failed 2500 uuidA 7 dbRich 6000 1 acctPaypal
    ProcessorKind.paypalProcessor "Connection error" (by decide) (by decide)

/-- C7 (amended): every generated reference number is `PO-` followed by
exactly 8 uppercase hex characters; a nonempty stored reference number
is never changed by any save; and two generated references are distinct
whenever the underlying uuid digests differ within their first 8
characters (truncation means duplicate-freedom of an arbitrary
collection holds only up to uuid-prefix collision). -/
theorem C7_amended_format_immutable_distinct
    (u v : String) (p : Payout)
    (hu : (u.data.take 8).all isHexLower = true)
    (hulen : 8 ≤ u.data.length)
    (hv : (v.data.take 8).all isHexLower = true)
    (hne : u.data.take 8 ≠ v.data.take 8)
    (hp : p.reference_number ≠ "") :
    (genReference u).data.take 3 = ['P', 'O', '-']
    ∧ ((genReference u).data.drop 3).length = 8
    ∧ ((genReference u).data.drop 3).all isHexUpper = true
    ∧ (∀ w, (Payout.save w p).reference_number = p.reference_number)
    ∧ genReference u ≠ genReference v := by
  have hdrop : (genReference u).data.drop 3 = (u.data.take 8).map Char.toUpper := rfl
  refine ⟨rfl, ?_, ?_, ?_, ?_⟩
  · rw [hdrop, List.length_map, List.length_take]
    exact Nat.min_eq_left hulen
  · rw [hdrop, List.all_eq_true]
    intro x hx
    rw [List.mem_map] at hx
    obtain ⟨c, hc, rfl⟩ := hx
    exact isHexUpper_toUpper (List.all_eq_true.mp hu c hc)
  · intro w
    exact Payout.save_reference_of_nonempty w p hp
  · intro h
    have hd := congrArg String.data h
    rw [genReference_data, genReference_data] at hd
    have hmap : (u.data.take 8).map Char.toUpper = (v.data.take 8).map Char.toUpper := by
      injection hd with _ hd1
      injection hd1 with _ hd2
      injection hd2 with _ hd3
    exact hne (map_toUpper_injective _ _ hu hv hmap)

/-- C7 witness: the amended statement at two concrete uuid digests and
a concrete persisted payout. -/
theorem C7_amended_witness :
    (genReference uuidA).data.take 3 = ['P', 'O', '-']
    ∧ ((genReference uuidA).data.drop 3).length = 8
    ∧ ((genReference uuidA).data.drop 3).all isHexUpper = true
    ∧ (∀ w, (Payout.save w c7_payout).reference_number = c7_payout.reference_number)
    ∧ genReference uuidA ≠ genReference uuidB :=
  C7_amended_format_immutable_distinct uuidA uuidB c7_payout
    (by decide) (by decide) (by decide) (by decide) (by decide)

/-- C8: for a schedule due at sweep time whose vendor balance meets the
schedule minimum and who has a primary payout account, the sweep
creates and dispatches a `PENDING` payout over the full available
balance through the primary account, and its outcome is among the sweep
results; the schedule's `next_payout_date` is then set to the sweep day
plus 7/14/30 days for weekly/bi-weekly/monthly cadence, and to NULL for
a manual schedule. -/
theorem C8_sweep_pays_full_balance_and_advances
    (today now : Int) (uuids : Nat → String) (env : Nat → VendorBalance × Option Nat)
    (schedules : List Schedule) (b : VendorBalance) (aid : Nat) (s : Schedule)
    (hmem : s ∈ schedules)
    (hdue : dueForSweep today s = true)
    (henv : env s.vendorId = (b, some aid))
    (hbal : s.minimum_payout_amount ≤ b.available_balance) :
    sweepScheduleBody today now (uuids s.vendorId) b (some aid) s =
      SweepOutcome.createdAndDispatched
        (sweepPayout (uuids s.vendorId) s.vendorId aid b.available_balance)
        (update_next_payout_date today now s)
    ∧ SweepOutcome.createdAndDispatched
        (sweepPayout (uuids s.vendorId) s.vendorId aid b.available_balance)
        (update_next_payout_date today now s)
        ∈ process_scheduled_payouts today now uuids env schedules
    ∧ (sweepPayout (uuids s.vendorId) s.vendorId aid b.available_balance).amount
        = b.available_balance
    ∧ (sweepPayout (uuids s.vendorId) s.vendorId aid b.available_balance).accountId = aid
    ∧ (sweepPayout (uuids s.vendorId) s.vendorId aid b.available_balance).status
        = PayoutStatus.pending
    ∧ (s.schedule_type = ScheduleType.weekly →
        (update_next_payout_date today now s).next_payout_date = some (today + 7))
    ∧ (s.schedule_type = ScheduleType.bi_weekly →
        (update_next_payout_date today now s).next_payout_date = some (today + 14))
    ∧ (s.schedule_type = ScheduleType.monthly →
        (update_next_payout_date today now s).next_payout_date = some (today + 30))
    ∧ (s.schedule_type = ScheduleType.manual →
        (update_next_payout_date today now s).next_payout_date = none) := by
  have hbody : sweepScheduleBody today now (uuids s.vendorId) b (some aid) s =
      SweepOutcome.createdAndDispatched
        (sweepPayout (uuids s.vendorId) s.vendorId aid b.available_balance)
        (update_next_payout_date today now s) := by
    unfold sweepScheduleBody
    rw [if_pos hbal]
  refine ⟨hbody, ?_, ?_, ?_, ?_, ?_, ?_, ?_, ?_⟩
  · have hm : s ∈ schedules.filter (dueForSweep today) := List.mem_filter.mpr ⟨hmem, hdue⟩
    have hmm := List.mem_map_of_mem
      (fun s2 => sweepScheduleBody today now (uuids s2.vendorId)
        (env s2.vendorId).1 (env s2.vendorId).2 s2) hm
    simp only [henv] at hmm
    unfold process_scheduled_payouts
    rw [← hbody]
    exact hmm
  · unfold sweepPayout
    rw [Payout.save_amount]
  · unfold sweepPayout
    rw [Payout.save_accountId]
  · unfold sweepPayout
    rw [Payout.save_status]
  · intro h
    simp [update_next_payout_date, h]
  · intro h
    simp [update_next_payout_date, h]
  · intro h
    simp [update_next_payout_date, h]
  · intro h
    simp [update_next_payout_date, h]

/-- C8 witness: the sweep behavior at a concrete due weekly schedule
with `$100.00` available against a `$50.00` minimum. -/
theorem C8_witness :
    sweepScheduleBody 100 1000 uuidA ⟨10000, 0, 10000, 0, 0⟩ (some 1) schedWeekly =
      SweepOutcome.createdAndDispatched (sweepPayout uuidA 7 1 10000)
        (update_next_payout_date 100 1000 schedWeekly)
    ∧ SweepOutcome.createdAndDispatched (sweepPayout uuidA 7 1 10000)
        (update_next_payout_date 100 1000 schedWeekly)
        ∈ process_scheduled_payouts 100 1000 (fun _ => uuidA)
            (fun _ => (⟨10000, 0, 10000, 0, 0⟩, some 1)) [schedWeekly]
    ∧ (sweepPayout uuidA 7 1 10000).amount = 10000
    ∧ (sweepPayout uuidA 7 1 10000).accountId = 1
    ∧ (sweepPayout uuidA 7 1 10000).status = PayoutStatus.pending
    ∧ (schedWeekly.schedule_type = ScheduleType.weekly →
        (update_next_payout_date 100 1000 schedWeekly).next_payout_date = some 107)
    ∧ (schedWeekly.schedule_type = ScheduleType.bi_weekly →
        (update_next_payout_date 100 1000 schedWeekly).next_payout_date = some 114)
    ∧ (schedWeekly.schedule_type = ScheduleType.monthly →
        (update_next_payout_date 100 1000 schedWeekly).next_payout_date = some 130)
    ∧ (schedWeekly.schedule_type = ScheduleType.manual →
        (update_next_payout_date 100 1000 schedWeekly).next_payout_date = none) :=
  C8_sweep_pays_full_balance_and_advances 100 1000 (fun _ => uuidA)
    (fun _ => (⟨10000, 0, 10000, 0, 0⟩, some 1)) [schedWeekly]
    ⟨10000, 0, 10000, 0, 0⟩ 1 schedWeekly
    (by decide) (by decide) rfl (by decide)

/-- C9 (amended): serializer-level validation rejections happen before
any side effect (database returned unchanged), but the
unsupported-processor rejection (cash account type) happens only AFTER
the `Payout` row has been persisted: the row remains stored in
`PENDING` status while the error is raised; the vendor balance is
unmodified in both rejection paths. -/
theorem C9_amended_rejection_side_effects
    (minPayout : Int) (u : String) (vid : Nat) (db : Db) (amount : Int) (aid : Nat)
    (po : ProcOutcome) (acct : PayoutAccount)
    (hv : payoutCreateValidate minPayout db.accounts db.balance amount aid = Except.ok acct)
    (hcash : acct.account_type = AccountType.cash) :
    payoutViewCreate minPayout u vid db amount aid po =
      ({ db with payouts := db.payouts ++ [newPayout u vid acct amount] },
       Except.error (PyError.customException "Unsupported payout method." 400))
    ∧ (newPayout u vid acct amount).status = PayoutStatus.pending
    ∧ (payoutViewCreate minPayout u vid db amount aid po).1.balance = db.balance
    ∧ (∀ (db2 : Db) (amount2 : Int) (aid2 : Nat) (po2 : ProcOutcome) (e : PyError),
        payoutCreateValidate minPayout db2.accounts db2.balance amount2 aid2 = Except.error e →
        payoutViewCreate minPayout u vid db2 amount2 aid2 po2 = (db2, Except.error e)) := by
  have hview : payoutViewCreate minPayout u vid db amount aid po =
      ({ db with payouts := db.payouts ++ [newPayout u vid acct amount] },
       Except.error (PyError.customException "Unsupported payout method." 400)) := by
    simp only [payoutViewCreate, hv, hcash, get_processor]
  refine ⟨hview, ?_, ?_, ?_⟩
  · unfold newPayout
    rw [Payout.save_status]
  · rw [hview]
  · intro db2 amount2 aid2 po2 e he
    simp only [payoutViewCreate, he]

/-- C9 witness: the amended statement at the concrete verified cash
account of the rich vendor. -/
theorem C9_amended_witness :
    payoutViewCreate 2500 uuidA 7 dbRich 6000 2 (ProcOutcome.raised "never reached") =
      ({ dbRich with payouts := dbRich.payouts ++ [newPayout uuidA 7 acctCash 6000] },
       Except.error (PyError.customException "Unsupported payout method." 400))
    ∧ (newPayout uuidA 7 acctCash 6000).status = PayoutStatus.pending
    ∧ (payoutViewCreate 2500 uuidA 7 dbRich 6000 2
        (ProcOutcome.raised "never reached")).1.balance = dbRich.balance
    ∧ (∀ (db2 : Db) (amount2 : Int) (aid2 : Nat) (po2 : ProcOutcome) (e : PyError),
        payoutCreateValidate 2500 db2.accounts db2.balance amount2 aid2 = Except.error e →
        payoutViewCreate 2500 uuidA 7 db2 amount2 aid2 po2 = (db2, Except.error e)) :=
  C9_amended_rejection_side_effects 2500 uuidA 7 dbRich 6000 2
    (ProcOutcome.raised "never reached") acctCash (by decide) (by decide)

/-- C10: the sweep visits every due active auto-process schedule and
advances it even when the vendor's balance is below the schedule
minimum: no payout is created, yet `update_next_payout_date` still
runs, stamping `last_processed_at` and pushing `next_payout_date` a
full cadence interval past the sweep day (NULL for manual), so the
ineligible vendor's next opportunity is deferred. -/
theorem C10_sweep_advances_below_minimum
    (today now : Int) (uuids : Nat → String) (env : Nat → VendorBalance × Option Nat)
    (schedules : List Schedule) (b : VendorBalance) (pacct : Option Nat) (s : Schedule)
    (hmem : s ∈ schedules)
    (hdue : dueForSweep today s = true)
    (henv : env s.vendorId = (b, pacct))
    (hbal : b.available_balance < s.minimum_payout_amount) :
    sweepScheduleBody today now (uuids s.vendorId) b pacct s =
      SweepOutcome.skippedBelowMinimum (update_next_payout_date today now s)
    ∧ SweepOutcome.skippedBelowMinimum (update_next_payout_date today now s)
        ∈ process_scheduled_payouts today now uuids env schedules
    ∧ (update_next_payout_date today now s).last_processed_at = some now
    ∧ (s.schedule_type = ScheduleType.weekly →
        (update_next_payout_date today now s).next_payout_date = some (today + 7))
    ∧ (s.schedule_type = ScheduleType.bi_weekly →
        (update_next_payout_date today now s).next_payout_date = some (today + 14))
    ∧ (s.schedule_type = ScheduleType.monthly →
        (update_next_payout_date today now s).next_payout_date = some (today + 30))
    ∧ (s.schedule_type = ScheduleType.manual →
        (update_next_payout_date today now s).next_payout_date = none) := by
  have hbody : sweepScheduleBody today now (uuids s.vendorId) b pacct s =
      SweepOutcome.skippedBelowMinimum (update_next_payout_date today now s) := by
    unfold sweepScheduleBody
    rw [if_neg (not_le.mpr hbal)]
  refine ⟨hbody, ?_, rfl, ?_, ?_, ?_, ?_⟩
  · have hm : s ∈ schedules.filter (dueForSweep today) := List.mem_filter.mpr ⟨hmem, hdue⟩
    have hmm := List.mem_map_of_mem
      (fun s2 => sweepScheduleBody today now (uuids s2.vendorId)
        (env s2.vendorId).1 (env s2.vendorId).2 s2) hm
    simp only [henv] at hmm
    unfold process_scheduled_payouts
    rw [← hbody]
    exact hmm
  · intro h
    simp [update_next_payout_date, h]
  · intro h
    simp [update_next_payout_date, h]
  · intro h
    simp [update_next_payout_date, h]
  · intro h
    simp [update_next_payout_date, h]

/-- C10 witness: a due weekly schedule whose vendor has only `$10.00`
available against the `$50.00` minimum still gets advanced. -/
theorem C10_witness :
    sweepScheduleBody 100 1000 uuidA ⟨1000, 0, 1000, 0, 0⟩ (some 1) schedWeekly =
      SweepOutcome.skippedBelowMinimum (update_next_payout_date 100 1000 schedWeekly)
    ∧ SweepOutcome.skippedBelowMinimum (update_next_payout_date 100 1000 schedWeekly)
        ∈ process_scheduled_payouts 100 1000 (fun _ => uuidA)
            (fun _ => (⟨1000, 0, 1000, 0, 0⟩, some 1)) [schedWeekly]
    ∧ (update_next_payout_date 100 1000 schedWeekly).last_processed_at = some 1000
    ∧ (schedWeekly.schedule_type = ScheduleType.weekly →
        (update_next_payout_date 100 1000 schedWeekly).next_payout_date = some 107)
    ∧ (schedWeekly.schedule_type = ScheduleType.bi_weekly →
        (update_next_payout_date 100 1000 schedWeekly).next_payout_date = some 114)
    ∧ (schedWeekly.schedule_type = ScheduleType.monthly →
        (update_next_payout_date 100 1000 schedWeekly).next_payout_date = some 130)
    ∧ (schedWeekly.schedule_type = ScheduleType.manual →
        (update_next_payout_date 100 1000 schedWeekly).next_payout_date = none) :=
  C10_sweep_advances_below_minimum 100 1000 (fun _ => uuidA)
    (fun _ => (⟨1000, 0, 1000, 0, 0⟩, some 1)) [schedWeekly]
    ⟨1000, 0, 1000, 0, 0⟩ (some 1) schedWeekly
    (by decide) (by decide) rfl (by decide)

end VendorService
